import Mathlib

/-!
Shallow embedding of the GlucoFlow risk-scoring and feedback engine.

The repository holds two Python files, `src/app.py` (Flask variant) and
`src/glucoflow.py` (Streamlit variant).  Each defines the same data model
(`UserProfile`, `DailyLog`) and the two core functions
`get_prediction_and_explanation` and `generate_personalized_feedback`.
Numeric fields are embedded as `Int` (Python ints) and `ℚ` (Python floats;
every constant in the engine is an exact decimal, so rational arithmetic
mirrors the source's intent).  The Python `dict` used for the explanation
is embedded as an insertion-ordered association list: each label is
assigned at most once per evaluation, so appending is dict assignment.
-/

/-- Daily behavioural log (`DailyLog.__init__` in src/app.py lines 54-78;
the same class appears in src/glucoflow.py lines 32-46).  The `date` field
is an opaque calendar date, embedded as a string. -/
structure DailyLog where
  date : String
  sleep_hours : ℚ
  sleep_quality : String
  carbs_g : Int
  protein_g : Int
  fat_g : Int
  activity_minutes : Int
  activity_type : String
  stress_level : String
  took_metformin : Bool
  took_insulin : Bool

/-- Static clinical profile (`UserProfile.__init__` in src/app.py lines
30-49; identical in src/glucoflow.py lines 21-30). -/
structure UserProfile where
  name : String
  age : Int
  diagnosis_type : String
  years_since_diagnosis : Int
  bmi : ℚ
  on_metformin : Bool
  on_insulin : Bool
  logs : List DailyLog

/-- State threaded through the engine: the running `risk_score` and the
insertion-ordered `explanation` map. -/
abbrev EngineState := ℚ × List (String × ℚ)

/-- One `risk_score += value; explanation[label] = value` block of the
Python source. -/
def addFactor (label : String) (value : ℚ) (s : EngineState) : EngineState :=
  (s.1 + value, s.2 ++ [(label, value)])

/-- A guarded `addFactor`: the `if cond:` wrapper around each scoring block. -/
def factorStep (b : Prop) [Decidable b] (label : String) (value : ℚ)
    (s : EngineState) : EngineState :=
  if b then addFactor label value s else s

/-- Python's `label in explanation` membership test on the ordered map. -/
def hasFactor (explanation : List (String × ℚ)) (label : String) : Bool :=
  explanation.any (fun kv => kv.1 == label)

/-- Sum of the values of the explanation map. -/
def sumValues (explanation : List (String × ℚ)) : ℚ :=
  (explanation.map Prod.snd).sum

namespace app

/-- Group 1 and 2 of `get_prediction_and_explanation` (src/app.py lines
93-105): the high-carb base factor and the balanced-meal offset, which is
guarded by `carb_risk > 0`. -/
def diet_steps (log : DailyLog) : EngineState :=
  let carb_risk : ℚ := if log.carbs_g > 80 then 0.40 else 0
  factorStep (carb_risk > 0 ∧ (log.protein_g > 15 ∨ log.fat_g > 10))
    "Balanced Meal Offset" (-0.10)
    (factorStep (log.carbs_g > 80) "High-Carb Meal ( > 80g)" carb_risk (0, []))

/-- Sleep factor (src/app.py lines 108-111). -/
def sleep_step (log : DailyLog) (s : EngineState) : EngineState :=
  factorStep (log.sleep_hours < 6) "Poor Sleep ( < 6 hours)" 0.15 s

/-- Stress factor (src/app.py lines 114-117). -/
def stress_step (log : DailyLog) (s : EngineState) : EngineState :=
  factorStep (log.stress_level = "high") "High Stress Level" 0.20 s

/-- Activity if/elif/elif chain (src/app.py lines 120-135).  The first
branch only adds the low-activity penalty when the post-meal-aerobic
reward is not already in the map. -/
def activity_step (log : DailyLog) (s : EngineState) : EngineState :=
  if log.activity_minutes < 10 then
    factorStep (hasFactor s.2 "Post-Meal Aerobic Activity" = false)
      "Low Activity ( < 10 min)" 0.15 s
  else if log.activity_type = "aerobic" ∧ log.carbs_g > 50 then
    addFactor "Post-Meal Aerobic Activity" (-0.20) s
  else if log.activity_type = "anaerobic" then
    addFactor "Anaerobic Activity" (-0.10) s
  else s

/-- Medication-adherence factors (src/app.py lines 139-147). -/
def adherence_steps (user : UserProfile) (log : DailyLog) (s : EngineState) :
    EngineState :=
  factorStep (user.on_insulin ∧ ¬ log.took_insulin) "Missed Insulin Dose" 0.50
    (factorStep (user.on_metformin ∧ ¬ log.took_metformin)
      "Missed Metformin Dose" 0.30 s)

/-- The engine state after groups 1-3 of src/app.py lines 90-147, i.e.
everything before the compounding amplifiers. -/
def pre_amplifier (user : UserProfile) (log : DailyLog) : EngineState :=
  adherence_steps user log
    (activity_step log (stress_step log (sleep_step log (diet_steps log))))

/-- Compounding amplifiers (src/app.py lines 150-158): each fires only when
the running total at that point is strictly positive. -/
def with_amplifiers (user : UserProfile) (log : DailyLog) : EngineState :=
  let s6 := pre_amplifier user log
  let s7 := factorStep (user.bmi > 28 ∧ s6.1 > 0) "Risk amplified by BMI" 0.10 s6
  factorStep (user.years_since_diagnosis > 5 ∧ s7.1 > 0)
    "Risk amplified by T2D duration" 0.10 s7

/-- `get_prediction_and_explanation` of src/app.py lines 85-165.  The
finalization (lines 160-163) is `max(0, risk_score)` followed by
`min(_, 1.0)`. -/
def get_prediction_and_explanation (user : UserProfile) (log : DailyLog) :
    ℚ × List (String × ℚ) :=
  let s := with_amplifiers user log
  (min (max 0 s.1) 1, s.2)

end app

namespace glucoflow

/-- `get_prediction_and_explanation` of src/glucoflow.py lines 49-115.  The
body is the same rule chain as the app.py variant; the finalization (line
114) is `max(0, min(risk_score, 1.0))`, clamping in the other order. -/
def get_prediction_and_explanation (user : UserProfile) (log : DailyLog) :
    ℚ × List (String × ℚ) :=
  let carb_risk : ℚ := if log.carbs_g > 80 then 0.40 else 0
  let s1 := factorStep (log.carbs_g > 80) "High-Carb Meal ( > 80g)" carb_risk (0, [])
  let s2 := factorStep (carb_risk > 0 ∧ (log.protein_g > 15 ∨ log.fat_g > 10))
    "Balanced Meal Offset" (-0.10) s1
  let s3 := factorStep (log.sleep_hours < 6) "Poor Sleep ( < 6 hours)" 0.15 s2
  let s4 := factorStep (log.stress_level = "high") "High Stress Level" 0.20 s3
  let s5 :=
    if log.activity_minutes < 10 then
      factorStep (hasFactor s4.2 "Post-Meal Aerobic Activity" = false)
        "Low Activity ( < 10 min)" 0.15 s4
    else if log.activity_type = "aerobic" ∧ log.carbs_g > 50 then
      addFactor "Post-Meal Aerobic Activity" (-0.20) s4
    else if log.activity_type = "anaerobic" then
      addFactor "Anaerobic Activity" (-0.10) s4
    else s4
  let s6 := factorStep (user.on_metformin ∧ ¬ log.took_metformin)
    "Missed Metformin Dose" 0.30 s5
  let s7 := factorStep (user.on_insulin ∧ ¬ log.took_insulin)
    "Missed Insulin Dose" 0.50 s6
  let s8 := factorStep (user.bmi > 28 ∧ s7.1 > 0) "Risk amplified by BMI" 0.10 s7
  let s9 := factorStep (user.years_since_diagnosis > 5 ∧ s8.1 > 0)
    "Risk amplified by T2D duration" 0.10 s8
  (max 0 (min s9.1 1), s9.2)

end glucoflow

namespace app

/-- Message returned at src/app.py lines 181-183. -/
def critical_insulin_msg : String :=
  "**CRITICAL SUGGESTION:** You logged that you missed your insulin. This is the #1 reason for your high-risk score. Please follow your doctor's advice on what to do when you miss a dose."

/-- Message returned at src/app.py lines 186-188. -/
def missed_metformin_msg : String :=
  "**HIGH PRIORITY SUGGESTION:** We noticed you may have missed your Metformin. This is a key factor in your risk today. Please try to set a reminder for your next dose."

/-- Quantitative walk recommendation built at src/app.py lines 194-202.
The source computes `int(excess_carbs * CARB_TO_WALK_RATIO)` with the ratio
constant fixed at 1.0 and `excess_carbs` an integer, so the truncating
`int(...)` is the identity and the minutes are `carbs_g - CARB_BASELINE`
clamped to [15, 45] with `CARB_BASELINE = 60`. -/
def high_risk_walk_msg (carbs_g : Int) : String :=
  let excess_carbs : Int := carbs_g - 60
  let activity_suggestion_minutes : Int := max 15 (min excess_carbs 45)
  "**HIGH RISK DETECTED.** Your carb load was high and un-managed by activity. **Corrective Action:** To help your body process these " ++
    toString carbs_g ++ "g of carbs, a **" ++ toString activity_suggestion_minutes ++
    "-minute aerobic walk** in the next hour is strongly recommended."

/-- Message returned at src/app.py lines 206-209. -/
def high_stress_msg : String :=
  "**HIGH RISK DETECTED.** You noted high stress. Stress (cortisol) can directly raise blood sugar, even if you eat perfectly. **Corrective Action:** Please take 5-10 minutes for a guided breathing exercise or a quiet walk. Managing stress is key to managing glucose."

/-- Message returned at src/app.py lines 214-217. -/
def moderate_carb_msg : String :=
  "**MODERATE RISK.** Your meal was high in carbs and low in protein/fat. **Corrective Action:** A quick 10-minute walk would be great. **Preventive Tip:** For your next meal, try adding a source of protein (like chicken or beans) to your carbs to help slow down sugar absorption."

/-- Message returned at src/app.py lines 220-222. -/
def moderate_sleep_msg : String :=
  "**MODERATE RISK.** You logged poor sleep. This can affect your sugar levels all day. Your body may be more sensitive to carbs today. **Preventive Tip:** Let's focus on planning for a good night's rest tonight."

/-- Message returned at src/app.py lines 228-230. -/
def low_stress_msg : String :=
  "✅ **GREAT JOB!** Your risk score is low, *even though* you're under high stress. You are managing it well! **Preventive Tip:** Remember that stress can build up. Try to start tomorrow with 5 minutes of quiet time to stay ahead."

/-- Message returned at src/app.py lines 233-235. -/
def perfect_strategy_msg : String :=
  "✅ **PERFECT STRATEGY!** You logged a high-carb meal *and* the aerobic activity to manage it. This is exactly how to do it. Your risk score is low as a result. Keep up the fantastic work!"

/-- Message returned at src/app.py lines 238-240. -/
def all_clear_msg : String :=
  "✅ **GREAT JOB!** Your risk score is low. Your logs show you're balancing your meals, activity, and medication well. You're doing fantastic!"

/-- Message returned at src/app.py line 243.  In the source it is reached
when the high-risk or moderate-risk block is entered but none of its inner
branches returns. -/
def catch_all_msg : String :=
  "Please be mindful of your logged items. Try to balance your next meal and add some light activity."

/-- `generate_personalized_feedback` of src/app.py lines 169-243: a strict
priority cascade over the explanation map and score bands.  The low-risk
`else` block always returns, so the final catch-all is reachable only from
the two upper bands. -/
def generate_personalized_feedback (user : UserProfile) (log : DailyLog)
    (risk_score : ℚ) (explanation : List (String × ℚ)) : String :=
  if hasFactor explanation "Missed Insulin Dose" then critical_insulin_msg
  else if hasFactor explanation "Missed Metformin Dose" then missed_metformin_msg
  else if risk_score > 0.6 then
    if hasFactor explanation "High-Carb Meal ( > 80g)" ∧
        ¬ hasFactor explanation "Post-Meal Aerobic Activity" then
      high_risk_walk_msg log.carbs_g
    else if hasFactor explanation "High Stress Level" then high_stress_msg
    else catch_all_msg
  else if risk_score > 0.4 then
    if hasFactor explanation "High-Carb Meal ( > 80g)" ∧
        ¬ hasFactor explanation "Balanced Meal Offset" then moderate_carb_msg
    else if hasFactor explanation "Poor Sleep ( < 6 hours)" then moderate_sleep_msg
    else catch_all_msg
  else
    if hasFactor explanation "High Stress Level" then low_stress_msg
    else if hasFactor explanation "Post-Meal Aerobic Activity" then perfect_strategy_msg
    else all_clear_msg

end app

namespace glucoflow

/-- Message returned at src/glucoflow.py lines 119-121. -/
def critical_insulin_msg : String :=
  "CRITICAL: You logged that you missed your insulin. Please follow your doctor's advice on what to do when you miss a dose. This is the #1 reason for your high-risk score."

/-- Message returned at src/glucoflow.py lines 124-126. -/
def missed_metformin_msg : String :=
  "HIGH PRIORITY: We noticed you may have missed your Metformin. This is a key factor in your risk today. Try to set a reminder for your next dose."

/-- Message returned at src/glucoflow.py lines 129-131. -/
def high_stress_msg : String :=
  "Your risk score is high, and you noted high stress. Stress (cortisol) can directly raise blood sugar. **Actionable Suggestion:** Can you take 5 minutes for a guided breathing exercise?"

/-- Message returned at src/glucoflow.py lines 135-137. -/
def carb_low_activity_msg : String :=
  "This is a high-risk combination... **Actionable Suggestion:** Can you take a 15-20 minute aerobic walk? This is the best way to help your body manage the carbs."

/-- Message returned at src/glucoflow.py lines 140-142. -/
def carb_poor_sleep_msg : String :=
  "Your risk is high. Poor sleep can make you more insulin resistant... **Actionable Suggestion:** Be mindful of your next meal, and let's focus on getting more rest tonight."

/-- Message returned at src/glucoflow.py lines 146-148. -/
def moderate_carb_msg : String :=
  "MODERATE RISK: Your meal was high in carbs and low in protein/fat. **Pro-Tip:** Adding protein or healthy fats to your carbs helps slow down sugar absorption. Try it for your next meal!"

/-- Message returned at src/glucoflow.py lines 151-152. -/
def moderate_balanced_msg : String :=
  "MODERATE RISK: Your meal was high in carbs. You did a good job balancing it... but a quick 10-minute walk would still be a great way to help."

/-- Message returned at src/glucoflow.py lines 155-156. -/
def moderate_sleep_msg : String :=
  "MODERATE RISK: You logged poor sleep. This can affect your sugar levels all day. Your body may be more sensitive to carbs today."

/-- Message returned at src/glucoflow.py lines 159-160 (the leading glyphs
reproduce the double-encoded check mark present in the source bytes). -/
def fantastic_msg : String :=
  "âœ… FANTASTIC WORK! You logged a high-carb meal *and* the aerobic activity to manage it. This is the perfect strategy! Your risk score is low as a result."

/-- Message returned at src/glucoflow.py lines 162-163. -/
def great_job_msg : String :=
  "âœ… GREAT JOB! Your risk score is low. Keep up the fantastic work!"

/-- Message returned at src/glucoflow.py line 165. -/
def catch_all_msg : String :=
  "Please be mindful of your logged items, as they are contributing to a higher risk."

/-- `generate_personalized_feedback` of src/glucoflow.py lines 117-165.
The stress check at lines 128-131 is a standalone `if` placed before the
score-band chain; the final `elif`/`else` of the band chain always return,
so the catch-all is reachable only from the two upper bands. -/
def generate_personalized_feedback (user : UserProfile) (log : DailyLog)
    (risk_score : ℚ) (explanation : List (String × ℚ)) : String :=
  if hasFactor explanation "Missed Insulin Dose" then critical_insulin_msg
  else if hasFactor explanation "Missed Metformin Dose" then missed_metformin_msg
  else if hasFactor explanation "High Stress Level" ∧ risk_score > 0.6 then
    high_stress_msg
  else if risk_score > 0.7 then
    if hasFactor explanation "High-Carb Meal ( > 80g)" ∧
        hasFactor explanation "Low Activity ( < 10 min)" then carb_low_activity_msg
    else if hasFactor explanation "High-Carb Meal ( > 80g)" ∧
        hasFactor explanation "Poor Sleep ( < 6 hours)" then carb_poor_sleep_msg
    else catch_all_msg
  else if risk_score > 0.4 then
    if hasFactor explanation "High-Carb Meal ( > 80g)" ∧
        ¬ hasFactor explanation "Balanced Meal Offset" then moderate_carb_msg
    else if hasFactor explanation "High-Carb Meal ( > 80g)" then moderate_balanced_msg
    else if hasFactor explanation "Poor Sleep ( < 6 hours)" then moderate_sleep_msg
    else catch_all_msg
  else if hasFactor explanation "Post-Meal Aerobic Activity" then fantastic_msg
  else great_job_msg

end glucoflow

/-! Concrete sample inputs used to witness the universally quantified
theorems below on explicit data.  `logScenarioA` is Scenario A of the
specification; `logScenarioC` is Scenario C (post-meal aerobic activity
only, raw total -0.20). -/

def profileScenarioA : UserProfile :=
  ⟨"alex", 40, "Type 2 Diabetes", 1, 25, false, false, []⟩

def logScenarioA : DailyLog :=
  ⟨"2025-01-01", 7, "Good", 90, 0, 0, 0, "none", "low", false, false⟩

def profileScenarioC : UserProfile :=
  ⟨"casey", 50, "Prediabetes", 2, 24, false, false, []⟩

def logScenarioC : DailyLog :=
  ⟨"2025-01-02", 8, "Good", 70, 0, 0, 30, "aerobic", "low", false, false⟩

/-- Explanation map holding both missed-medication factors. -/
def explBothMissed : List (String × ℚ) :=
  [("Missed Insulin Dose", 0.50), ("Missed Metformin Dose", 0.30)]

/-- Explanation map holding only the high-carb factor. -/
def explHighCarbOnly : List (String × ℚ) :=
  [("High-Carb Meal ( > 80g)", 0.40)]

def profileNoise1 : UserProfile :=
  ⟨"pat", 30, "Type 1 Diabetes", 4, 27, true, true, []⟩

def profileNoise2 : UserProfile :=
  ⟨"quinn", 65, "Gestational Diabetes", 4, 27, true, true, [logScenarioA]⟩

def logNoise1 : DailyLog :=
  ⟨"2025-02-01", 5, "Poor", 100, 20, 5, 12, "aerobic", "high", false, true⟩

def logNoise2 : DailyLog :=
  ⟨"2025-03-15", 5, "Excellent", 100, 20, 5, 12, "aerobic", "high", false, true⟩

/-! Helper lemmas about the engine combinators. -/

lemma hasFactor_nil (k : String) : hasFactor [] k = false := rfl

lemma hasFactor_addFactor (lab : String) (v : ℚ) (s : EngineState) (k : String) :
    hasFactor (addFactor lab v s).2 k = (hasFactor s.2 k || (lab == k)) := by
  simp [addFactor, hasFactor, List.any_append]

lemma hasFactor_factorStep (b : Prop) [Decidable b] (lab : String) (v : ℚ)
    (s : EngineState) (k : String) :
    hasFactor (factorStep b lab v s).2 k =
      if b then (hasFactor s.2 k || (lab == k)) else hasFactor s.2 k := by
  unfold factorStep
  split <;> simp [hasFactor_addFactor]

lemma hasFactor_factorStep_ne (b : Prop) [Decidable b] {lab k : String}
    (h : (lab == k) = false) (v : ℚ) (s : EngineState) :
    hasFactor (factorStep b lab v s).2 k = hasFactor s.2 k := by
  rw [hasFactor_factorStep]
  split <;> simp [h]

lemma hasFactor_addFactor_ne {lab k : String} (h : (lab == k) = false)
    (v : ℚ) (s : EngineState) :
    hasFactor (addFactor lab v s).2 k = hasFactor s.2 k := by
  rw [hasFactor_addFactor, h, Bool.or_false]

lemma hasFactor_activity_ne (log : DailyLog) (s : EngineState) {k : String}
    (h1 : ("Low Activity ( < 10 min)" == k) = false)
    (h2 : ("Post-Meal Aerobic Activity" == k) = false)
    (h3 : ("Anaerobic Activity" == k) = false) :
    hasFactor (app.activity_step log s).2 k = hasFactor s.2 k := by
  unfold app.activity_step
  split_ifs <;>
    simp [hasFactor_factorStep_ne _ h1, hasFactor_addFactor_ne h2, hasFactor_addFactor_ne h3]

lemma hasFactor_stage4 (log : DailyLog) {k : String}
    (h1 : ("High-Carb Meal ( > 80g)" == k) = false)
    (h2 : ("Balanced Meal Offset" == k) = false)
    (h3 : ("Poor Sleep ( < 6 hours)" == k) = false)
    (h4 : ("High Stress Level" == k) = false) :
    hasFactor (app.stress_step log (app.sleep_step log (app.diet_steps log))).2 k = false := by
  simp only [app.stress_step, app.sleep_step, app.diet_steps]
  rw [hasFactor_factorStep_ne _ h4, hasFactor_factorStep_ne _ h3,
    hasFactor_factorStep_ne _ h2, hasFactor_factorStep_ne _ h1]
  rfl

lemma hasFactor_pre_amplifier_ne (user : UserProfile) (log : DailyLog) {k : String}
    (h1 : ("High-Carb Meal ( > 80g)" == k) = false)
    (h2 : ("Balanced Meal Offset" == k) = false)
    (h3 : ("Poor Sleep ( < 6 hours)" == k) = false)
    (h4 : ("High Stress Level" == k) = false)
    (ha1 : ("Low Activity ( < 10 min)" == k) = false)
    (ha2 : ("Post-Meal Aerobic Activity" == k) = false)
    (ha3 : ("Anaerobic Activity" == k) = false)
    (hm : ("Missed Metformin Dose" == k) = false)
    (hi : ("Missed Insulin Dose" == k) = false) :
    hasFactor (app.pre_amplifier user log).2 k = false := by
  simp only [app.pre_amplifier, app.adherence_steps]
  rw [hasFactor_factorStep_ne _ hi, hasFactor_factorStep_ne _ hm,
    hasFactor_activity_ne _ _ ha1 ha2 ha3, hasFactor_stage4 _ h1 h2 h3 h4]

lemma sumValues_nil : sumValues [] = 0 := rfl

lemma addFactor_sum (lab : String) (v : ℚ) (s : EngineState)
    (h : s.1 = sumValues s.2) :
    (addFactor lab v s).1 = sumValues (addFactor lab v s).2 := by
  simp [addFactor, sumValues, h, List.sum_append]

lemma factorStep_sum (b : Prop) [Decidable b] (lab : String) (v : ℚ)
    (s : EngineState) (h : s.1 = sumValues s.2) :
    (factorStep b lab v s).1 = sumValues (factorStep b lab v s).2 := by
  unfold factorStep
  split
  · exact addFactor_sum lab v s h
  · exact h

lemma activity_step_sum (log : DailyLog) (s : EngineState)
    (h : s.1 = sumValues s.2) :
    (app.activity_step log s).1 = sumValues (app.activity_step log s).2 := by
  unfold app.activity_step
  split_ifs <;>
    first
      | exact factorStep_sum _ _ _ _ h
      | exact addFactor_sum _ _ _ h
      | exact h

lemma diet_steps_sum (log : DailyLog) :
    (app.diet_steps log).1 = sumValues (app.diet_steps log).2 := by
  simp only [app.diet_steps]
  exact factorStep_sum _ _ _ _ (factorStep_sum _ _ _ _ rfl)

lemma pre_amplifier_sum (user : UserProfile) (log : DailyLog) :
    (app.pre_amplifier user log).1 = sumValues (app.pre_amplifier user log).2 := by
  simp only [app.pre_amplifier, app.adherence_steps, app.stress_step, app.sleep_step]
  exact factorStep_sum _ _ _ _ (factorStep_sum _ _ _ _ (activity_step_sum _ _
    (factorStep_sum _ _ _ _ (factorStep_sum _ _ _ _ (diet_steps_sum log)))))

lemma with_amplifiers_sum (user : UserProfile) (log : DailyLog) :
    (app.with_amplifiers user log).1 = sumValues (app.with_amplifiers user log).2 := by
  simp only [app.with_amplifiers]
  exact factorStep_sum _ _ _ _ (factorStep_sum _ _ _ _ (pre_amplifier_sum user log))

lemma clamp_orders_agree (r : ℚ) : min (max 0 r) 1 = max 0 (min r 1) := by
  rcases le_total r 0 with h | h
  · rw [max_eq_left h, min_eq_left (zero_le_one), min_eq_left (h.trans zero_le_one),
      max_eq_left h]
  · rw [max_eq_right h, max_eq_right (le_min h zero_le_one)]

lemma glucoflow_raw (user : UserProfile) (log : DailyLog) :
    glucoflow.get_prediction_and_explanation user log =
      (max 0 (min (app.with_amplifiers user log).1 1), (app.with_amplifiers user log).2) := rfl

lemma engines_eq_aux (user : UserProfile) (log : DailyLog) :
    glucoflow.get_prediction_and_explanation user log =
      app.get_prediction_and_explanation user log := by
  rw [glucoflow_raw]
  simp only [app.get_prediction_and_explanation]
  rw [clamp_orders_agree]

/-- C1: for every profile and log, the score returned by
`get_prediction_and_explanation` lies in the closed interval [0, 1], in
both the app.py and the glucoflow.py variant, no matter which factors,
offsets, and amplifiers fire. -/
theorem score_within_unit_interval (user : UserProfile) (log : DailyLog) :
    (0 ≤ (app.get_prediction_and_explanation user log).1 ∧
      (app.get_prediction_and_explanation user log).1 ≤ 1) ∧
    (0 ≤ (glucoflow.get_prediction_and_explanation user log).1 ∧
      (glucoflow.get_prediction_and_explanation user log).1 ≤ 1) := by
  have happ : 0 ≤ (app.get_prediction_and_explanation user log).1 ∧
      (app.get_prediction_and_explanation user log).1 ≤ 1 := by
    constructor
    · simp only [app.get_prediction_and_explanation]
      exact le_min (le_max_left 0 _) zero_le_one
    · simp only [app.get_prediction_and_explanation]
      exact min_le_right _ _
  exact ⟨happ, by rw [engines_eq_aux]; exact happ⟩

/-- C2: for every profile and log, the sum of all values of the returned
factor map, clamped to [0, 1] (floor at 0 first, then ceiling at 1),
equals the returned score. -/
theorem factor_sum_clamped_equals_score (user : UserProfile) (log : DailyLog) :
    min (max 0 (sumValues (app.get_prediction_and_explanation user log).2)) 1 =
      (app.get_prediction_and_explanation user log).1 := by
  simp only [app.get_prediction_and_explanation]
  rw [← with_amplifiers_sum]

/-- C9: the two risk-engine definitions, `get_prediction_and_explanation`
in src/app.py and in src/glucoflow.py, are extensionally equal: on every
profile and log they return the same score and the same factor map with
the same keys, values, and insertion order. -/
theorem engines_extensionally_equal (user : UserProfile) (log : DailyLog) :
    glucoflow.get_prediction_and_explanation user log =
      app.get_prediction_and_explanation user log :=
  engines_eq_aux user log

lemma amplifier_expl_frozen (user : UserProfile) (log : DailyLog)
    (h : (app.pre_amplifier user log).1 ≤ 0) :
    (app.get_prediction_and_explanation user log).2 = (app.pre_amplifier user log).2 := by
  have hbmi : ¬(user.bmi > 28 ∧ (app.pre_amplifier user log).1 > 0) :=
    fun hc => absurd hc.2 (not_lt.mpr h)
  have h7 : factorStep (user.bmi > 28 ∧ (app.pre_amplifier user log).1 > 0)
      "Risk amplified by BMI" 0.10 (app.pre_amplifier user log) =
        app.pre_amplifier user log := by
    rw [factorStep, if_neg hbmi]
  have hdur : ¬(user.years_since_diagnosis > 5 ∧ (app.pre_amplifier user log).1 > 0) :=
    fun hc => absurd hc.2 (not_lt.mpr h)
  simp only [app.get_prediction_and_explanation, app.with_amplifiers, h7]
  rw [factorStep, if_neg hdur]

/-- C3: for every profile and log, if the running total accumulated before
the amplifier group is at most 0, then neither the "Risk amplified by BMI"
entry nor the "Risk amplified by T2D duration" entry appears in the
returned factor map, regardless of bmi and years_since_diagnosis, in both
engine variants. -/
theorem amplifiers_silent_on_nonpositive_total (user : UserProfile) (log : DailyLog)
    (h : (app.pre_amplifier user log).1 ≤ 0) :
    (hasFactor (app.get_prediction_and_explanation user log).2
        "Risk amplified by BMI" = false ∧
      hasFactor (app.get_prediction_and_explanation user log).2
        "Risk amplified by T2D duration" = false) ∧
    (hasFactor (glucoflow.get_prediction_and_explanation user log).2
        "Risk amplified by BMI" = false ∧
      hasFactor (glucoflow.get_prediction_and_explanation user log).2
        "Risk amplified by T2D duration" = false) := by
  have happ1 : hasFactor (app.get_prediction_and_explanation user log).2
      "Risk amplified by BMI" = false := by
    rw [amplifier_expl_frozen user log h]
    exact hasFactor_pre_amplifier_ne user log (by decide) (by decide) (by decide)
      (by decide) (by decide) (by decide) (by decide) (by decide) (by decide)
  have happ2 : hasFactor (app.get_prediction_and_explanation user log).2
      "Risk amplified by T2D duration" = false := by
    rw [amplifier_expl_frozen user log h]
    exact hasFactor_pre_amplifier_ne user log (by decide) (by decide) (by decide)
      (by decide) (by decide) (by decide) (by decide) (by decide) (by decide)
  exact ⟨⟨happ1, happ2⟩, by rw [engines_eq_aux]; exact ⟨happ1, happ2⟩⟩

/-- C3 witness: Scenario C (70g carbs, 30 min aerobic activity) has
pre-amplifier total -0.20 and receives no amplifier entries. -/
theorem amplifiers_silent_witness :
    (app.pre_amplifier profileScenarioC logScenarioC).1 ≤ 0 ∧
    ((hasFactor (app.get_prediction_and_explanation profileScenarioC logScenarioC).2
        "Risk amplified by BMI" = false ∧
      hasFactor (app.get_prediction_and_explanation profileScenarioC logScenarioC).2
        "Risk amplified by T2D duration" = false) ∧
    (hasFactor (glucoflow.get_prediction_and_explanation profileScenarioC logScenarioC).2
        "Risk amplified by BMI" = false ∧
      hasFactor (glucoflow.get_prediction_and_explanation profileScenarioC logScenarioC).2
        "Risk amplified by T2D duration" = false)) := by
  have hpre : (app.pre_amplifier profileScenarioC logScenarioC).1 ≤ 0 := by
    norm_num [app.pre_amplifier, app.adherence_steps, app.activity_step, app.stress_step,
      app.sleep_step, app.diet_steps, factorStep, addFactor, hasFactor,
      profileScenarioC, logScenarioC,
      (by decide : ("low" : String) ≠ "high")]
  exact ⟨hpre, amplifiers_silent_on_nonpositive_total profileScenarioC logScenarioC hpre⟩

lemma hasFactor_gpae_to_activity (user : UserProfile) (log : DailyLog) {k : String}
    (hm : ("Missed Metformin Dose" == k) = false)
    (hi : ("Missed Insulin Dose" == k) = false)
    (hb : ("Risk amplified by BMI" == k) = false)
    (hd : ("Risk amplified by T2D duration" == k) = false) :
    hasFactor (app.get_prediction_and_explanation user log).2 k =
      hasFactor (app.activity_step log
        (app.stress_step log (app.sleep_step log (app.diet_steps log)))).2 k := by
  simp only [app.get_prediction_and_explanation, app.with_amplifiers, app.pre_amplifier,
    app.adherence_steps]
  rw [hasFactor_factorStep_ne _ hd, hasFactor_factorStep_ne _ hb,
    hasFactor_factorStep_ne _ hi, hasFactor_factorStep_ne _ hm]

/-- C8: for every profile and log with activity_minutes < 10, the
low-activity penalty entry is always added to the factor map: the inner
guard on the post-meal-aerobic label can never block it, because that
label is only inserted on the elif branch requiring activity_minutes >= 10. -/
theorem low_activity_always_fires (user : UserProfile) (log : DailyLog)
    (h : log.activity_minutes < 10) :
    hasFactor (app.get_prediction_and_explanation user log).2
        "Low Activity ( < 10 min)" = true ∧
    hasFactor (glucoflow.get_prediction_and_explanation user log).2
        "Low Activity ( < 10 min)" = true := by
  have happ : hasFactor (app.get_prediction_and_explanation user log).2
      "Low Activity ( < 10 min)" = true := by
    rw [hasFactor_gpae_to_activity user log (by decide) (by decide) (by decide) (by decide)]
    unfold app.activity_step
    rw [if_pos h]
    have hguard : hasFactor (app.stress_step log (app.sleep_step log
        (app.diet_steps log))).2 "Post-Meal Aerobic Activity" = false :=
      hasFactor_stage4 log (by decide) (by decide) (by decide) (by decide)
    rw [factorStep, if_pos hguard, hasFactor_addFactor]
    simp
  exact ⟨happ, by rw [engines_eq_aux]; exact happ⟩

/-- C8 witness: Scenario A logs 0 activity minutes and receives the
low-activity entry in both engine variants. -/
theorem low_activity_witness :
    logScenarioA.activity_minutes < 10 ∧
    (hasFactor (app.get_prediction_and_explanation profileScenarioA logScenarioA).2
        "Low Activity ( < 10 min)" = true ∧
      hasFactor (glucoflow.get_prediction_and_explanation profileScenarioA logScenarioA).2
        "Low Activity ( < 10 min)" = true) :=
  ⟨by decide, low_activity_always_fires profileScenarioA logScenarioA (by decide)⟩

/-- C4: for every profile and log, at most one of the three
activity-branch labels (low-activity penalty, post-meal-aerobic reward,
anaerobic reward) appears in the returned factor map; in particular the
low-activity penalty and the post-meal-aerobic reward never both appear. -/
theorem activity_labels_mutually_exclusive (user : UserProfile) (log : DailyLog) :
    ((hasFactor (app.get_prediction_and_explanation user log).2 "Low Activity ( < 10 min)" &&
        hasFactor (app.get_prediction_and_explanation user log).2 "Post-Meal Aerobic Activity") = false ∧
      (hasFactor (app.get_prediction_and_explanation user log).2 "Low Activity ( < 10 min)" &&
        hasFactor (app.get_prediction_and_explanation user log).2 "Anaerobic Activity") = false ∧
      (hasFactor (app.get_prediction_and_explanation user log).2 "Post-Meal Aerobic Activity" &&
        hasFactor (app.get_prediction_and_explanation user log).2 "Anaerobic Activity") = false) ∧
    ((hasFactor (glucoflow.get_prediction_and_explanation user log).2 "Low Activity ( < 10 min)" &&
        hasFactor (glucoflow.get_prediction_and_explanation user log).2 "Post-Meal Aerobic Activity") = false ∧
      (hasFactor (glucoflow.get_prediction_and_explanation user log).2 "Low Activity ( < 10 min)" &&
        hasFactor (glucoflow.get_prediction_and_explanation user log).2 "Anaerobic Activity") = false ∧
      (hasFactor (glucoflow.get_prediction_and_explanation user log).2 "Post-Meal Aerobic Activity" &&
        hasFactor (glucoflow.get_prediction_and_explanation user log).2 "Anaerobic Activity") = false) := by
  have happ : (hasFactor (app.get_prediction_and_explanation user log).2 "Low Activity ( < 10 min)" &&
        hasFactor (app.get_prediction_and_explanation user log).2 "Post-Meal Aerobic Activity") = false ∧
      (hasFactor (app.get_prediction_and_explanation user log).2 "Low Activity ( < 10 min)" &&
        hasFactor (app.get_prediction_and_explanation user log).2 "Anaerobic Activity") = false ∧
      (hasFactor (app.get_prediction_and_explanation user log).2 "Post-Meal Aerobic Activity" &&
        hasFactor (app.get_prediction_and_explanation user log).2 "Anaerobic Activity") = false := by
    rw [hasFactor_gpae_to_activity user log (by decide) (by decide) (by decide) (by decide),
      hasFactor_gpae_to_activity user log (by decide) (by decide) (by decide) (by decide),
      hasFactor_gpae_to_activity user log (by decide) (by decide) (by decide) (by decide)]
    have h1 := hasFactor_stage4 (k := "Low Activity ( < 10 min)") log
      (by decide) (by decide) (by decide) (by decide)
    have h2 := hasFactor_stage4 (k := "Post-Meal Aerobic Activity") log
      (by decide) (by decide) (by decide) (by decide)
    have h3 := hasFactor_stage4 (k := "Anaerobic Activity") log
      (by decide) (by decide) (by decide) (by decide)
    unfold app.activity_step
    split_ifs <;>
      simp [hasFactor_factorStep, hasFactor_addFactor, h1, h2, h3]
  refine ⟨happ, ?_⟩
  rw [engines_eq_aux]
  exact happ

/-- C10: the output of `get_prediction_and_explanation` is independent of
profile.name, profile.age, profile.diagnosis_type, profile.logs, log.date,
and log.sleep_quality: any two inputs agreeing on all remaining fields
yield identical score and factor map, in both engine variants. -/
theorem engine_ignores_unused_fields (u1 u2 : UserProfile) (l1 l2 : DailyLog)
    (hy : u1.years_since_diagnosis = u2.years_since_diagnosis)
    (hbmi : u1.bmi = u2.bmi)
    (hom : u1.on_metformin = u2.on_metformin)
    (hoi : u1.on_insulin = u2.on_insulin)
    (hsh : l1.sleep_hours = l2.sleep_hours)
    (hcg : l1.carbs_g = l2.carbs_g)
    (hpg : l1.protein_g = l2.protein_g)
    (hfg : l1.fat_g = l2.fat_g)
    (ham : l1.activity_minutes = l2.activity_minutes)
    (hat : l1.activity_type = l2.activity_type)
    (hst : l1.stress_level = l2.stress_level)
    (htm : l1.took_metformin = l2.took_metformin)
    (hti : l1.took_insulin = l2.took_insulin) :
    app.get_prediction_and_explanation u1 l1 = app.get_prediction_and_explanation u2 l2 ∧
    glucoflow.get_prediction_and_explanation u1 l1 =
      glucoflow.get_prediction_and_explanation u2 l2 := by
  have happ : app.get_prediction_and_explanation u1 l1 =
      app.get_prediction_and_explanation u2 l2 := by
    simp only [app.get_prediction_and_explanation, app.with_amplifiers, app.pre_amplifier,
      app.adherence_steps, app.activity_step, app.stress_step, app.sleep_step, app.diet_steps]
    simp only [hy, hbmi, hom, hoi, hsh, hcg, hpg, hfg, ham, hat, hst, htm, hti]
  exact ⟨happ, by rw [engines_eq_aux, engines_eq_aux]; exact happ⟩

/-- C10 witness: two profiles differing in name, age, diagnosis type, and
stored logs, with logs differing in date and sleep quality, evaluate
identically. -/
theorem engine_ignores_unused_fields_witness :
    (profileNoise1.years_since_diagnosis = profileNoise2.years_since_diagnosis ∧
      profileNoise1.bmi = profileNoise2.bmi ∧
      profileNoise1.on_metformin = profileNoise2.on_metformin ∧
      profileNoise1.on_insulin = profileNoise2.on_insulin ∧
      logNoise1.sleep_hours = logNoise2.sleep_hours ∧
      logNoise1.carbs_g = logNoise2.carbs_g ∧
      logNoise1.protein_g = logNoise2.protein_g ∧
      logNoise1.fat_g = logNoise2.fat_g ∧
      logNoise1.activity_minutes = logNoise2.activity_minutes ∧
      logNoise1.activity_type = logNoise2.activity_type ∧
      logNoise1.stress_level = logNoise2.stress_level ∧
      logNoise1.took_metformin = logNoise2.took_metformin ∧
      logNoise1.took_insulin = logNoise2.took_insulin) ∧
    (app.get_prediction_and_explanation profileNoise1 logNoise1 =
        app.get_prediction_and_explanation profileNoise2 logNoise2 ∧
      glucoflow.get_prediction_and_explanation profileNoise1 logNoise1 =
        glucoflow.get_prediction_and_explanation profileNoise2 logNoise2) :=
  ⟨⟨rfl, rfl, rfl, rfl, rfl, rfl, rfl, rfl, rfl, rfl, rfl, rfl, rfl⟩,
    engine_ignores_unused_fields profileNoise1 profileNoise2 logNoise1 logNoise2
      rfl rfl rfl rfl rfl rfl rfl rfl rfl rfl rfl rfl rfl⟩

/-- C5: for every profile, log, score, and factor map containing both the
"Missed Insulin Dose" entry and the "Missed Metformin Dose" entry,
`generate_personalized_feedback` returns the critical insulin message,
regardless of the score and of every other factor, in both variants. -/
theorem insulin_outranks_metformin (user : UserProfile) (log : DailyLog)
    (risk_score : ℚ) (explanation : List (String × ℚ))
    (hins : hasFactor explanation "Missed Insulin Dose" = true)
    (hmet : hasFactor explanation "Missed Metformin Dose" = true) :
    app.generate_personalized_feedback user log risk_score explanation =
        app.critical_insulin_msg ∧
    glucoflow.generate_personalized_feedback user log risk_score explanation =
        glucoflow.critical_insulin_msg := by
  constructor
  · simp [app.generate_personalized_feedback, hins]
  · simp [glucoflow.generate_personalized_feedback, hins]

/-- C5 witness: a factor map holding both missed-dose entries yields the
critical insulin message at score 1. -/
theorem insulin_outranks_metformin_witness :
    (hasFactor explBothMissed "Missed Insulin Dose" = true ∧
      hasFactor explBothMissed "Missed Metformin Dose" = true) ∧
    (app.generate_personalized_feedback profileScenarioA logScenarioA 1 explBothMissed =
        app.critical_insulin_msg ∧
      glucoflow.generate_personalized_feedback profileScenarioA logScenarioA 1 explBothMissed =
        glucoflow.critical_insulin_msg) :=
  ⟨⟨by decide, by decide⟩,
    insulin_outranks_metformin profileScenarioA logScenarioA 1 explBothMissed
      (by decide) (by decide)⟩

/-- C6: for every input with score above 0.6, no missed-medication factor,
the high-carb-meal factor present, and the post-meal-aerobic factor
absent, `generate_personalized_feedback` returns the walk recommendation
whose minutes are (carbs_g - 60) * 1 clamped to [15, 45] and whose text
states the exact carb grams and those exact minutes. -/
theorem high_risk_walk_recommendation (user : UserProfile) (log : DailyLog)
    (risk_score : ℚ) (explanation : List (String × ℚ))
    (hscore : risk_score > 0.6)
    (hins : hasFactor explanation "Missed Insulin Dose" = false)
    (hmet : hasFactor explanation "Missed Metformin Dose" = false)
    (hcarb : hasFactor explanation "High-Carb Meal ( > 80g)" = true)
    (haero : hasFactor explanation "Post-Meal Aerobic Activity" = false) :
    app.generate_personalized_feedback user log risk_score explanation =
      "**HIGH RISK DETECTED.** Your carb load was high and un-managed by activity. **Corrective Action:** To help your body process these " ++
        toString log.carbs_g ++ "g of carbs, a **" ++
        toString (max 15 (min ((log.carbs_g - 60) * 1) 45)) ++
        "-minute aerobic walk** in the next hour is strongly recommended." := by
  simp [app.generate_personalized_feedback, hins, hmet, hcarb, haero, hscore,
    app.high_risk_walk_msg, mul_one]

/-- C6 witness: at 90g of carbs and score 0.7 the walk recommendation
names 90g and a 30-minute walk. -/
theorem high_risk_walk_witness :
    ((0.7 : ℚ) > 0.6 ∧
      hasFactor explHighCarbOnly "Missed Insulin Dose" = false ∧
      hasFactor explHighCarbOnly "Missed Metformin Dose" = false ∧
      hasFactor explHighCarbOnly "High-Carb Meal ( > 80g)" = true ∧
      hasFactor explHighCarbOnly "Post-Meal Aerobic Activity" = false) ∧
    app.generate_personalized_feedback profileScenarioA logScenarioA 0.7 explHighCarbOnly =
      "**HIGH RISK DETECTED.** Your carb load was high and un-managed by activity. **Corrective Action:** To help your body process these " ++
        toString logScenarioA.carbs_g ++ "g of carbs, a **" ++
        toString (max 15 (min ((logScenarioA.carbs_g - 60) * 1) 45)) ++
        "-minute aerobic walk** in the next hour is strongly recommended." :=
  ⟨⟨by norm_num, by decide, by decide, by decide, by decide⟩,
    high_risk_walk_recommendation profileScenarioA logScenarioA 0.7 explHighCarbOnly
      (by norm_num) (by decide) (by decide) (by decide) (by decide)⟩

lemma scenarioA_eval :
    app.get_prediction_and_explanation profileScenarioA logScenarioA =
      (0.55, [("High-Carb Meal ( > 80g)", 0.40), ("Low Activity ( < 10 min)", 0.15)]) := by
  norm_num [app.get_prediction_and_explanation, app.with_amplifiers, app.pre_amplifier,
    app.adherence_steps, app.activity_step, app.stress_step, app.sleep_step, app.diet_steps,
    factorStep, addFactor, hasFactor, profileScenarioA, logScenarioA,
    (by decide : ("low" : String) ≠ "high"),
    (by decide : ("none" : String) ≠ "aerobic"),
    (by decide : ("none" : String) ≠ "anaerobic")]
  norm_num [(by decide : ¬ ("High-Carb Meal ( > 80g)" : String) = "Post-Meal Aerobic Activity")]

/-- C7 counterexample: on Scenario A the engine does not return the factor
map claimed in the specification, because the code's labels carry
threshold suffixes ("High-Carb Meal ( > 80g)", "Low Activity ( < 10 min)")
that the claim's labels ("High-Carb Meal", "Low Activity") lack. -/
theorem scenarioA_label_mismatch :
    ¬ (app.get_prediction_and_explanation profileScenarioA logScenarioA =
      (0.55, [("High-Carb Meal", 0.40), ("Low Activity", 0.15)])) := by
  intro h
  have h2 := scenarioA_eval.symm.trans h
  have hk := congrArg (fun p => p.2.map Prod.fst) h2
  simp at hk

/-- C7 amended: on Scenario A (90g carbs, 7h sleep, low stress, no
activity, no medications, bmi 25, 1 year since diagnosis) the engine
returns exactly the factor map with the code's labels
{"High-Carb Meal ( > 80g)": 0.40, "Low Activity ( < 10 min)": 0.15} and
score 0.55, and the feedback generator selects the moderate-risk
carb-pairing message. -/
theorem scenarioA_evaluation :
    app.get_prediction_and_explanation profileScenarioA logScenarioA =
      (0.55, [("High-Carb Meal ( > 80g)", 0.40), ("Low Activity ( < 10 min)", 0.15)]) ∧
    app.generate_personalized_feedback profileScenarioA logScenarioA
        (app.get_prediction_and_explanation profileScenarioA logScenarioA).1
        (app.get_prediction_and_explanation profileScenarioA logScenarioA).2 =
      app.moderate_carb_msg := by
  refine ⟨scenarioA_eval, ?_⟩
  rw [scenarioA_eval]
  norm_num [app.generate_personalized_feedback, hasFactor]
  norm_num [(by decide : ¬ ("High-Carb Meal ( > 80g)" : String) = "Missed Insulin Dose"),
    (by decide : ¬ ("Low Activity ( < 10 min)" : String) = "Missed Insulin Dose"),
    (by decide : ¬ ("High-Carb Meal ( > 80g)" : String) = "Missed Metformin Dose"),
    (by decide : ¬ ("Low Activity ( < 10 min)" : String) = "Missed Metformin Dose"),
    (by decide : ¬ ("High-Carb Meal ( > 80g)" : String) = "Balanced Meal Offset"),
    (by decide : ¬ ("Low Activity ( < 10 min)" : String) = "Balanced Meal Offset")]
